import Mathlib

/-!
Verification of the region-extraction and grid-composition engine of
ser-oldskullminis-pdf-cropper.

The source is two Python files:
  * src/app.py — raster strategy (pdf2image + PIL + reportlab);
  * src/app_alternative_not_working.py — vector strategy (pypdf).

Real-valued arithmetic (Python floats) is embedded as exact rational
arithmetic over ℚ.  Fallible Python paths (exceptions, HTTP error
responses) are embedded as explicit sum types.
-/

/-! ### Configuration constants, src/app.py lines 19-33 -/

def PDF_WIDTH : ℚ := 612
def PDF_HEIGHT : ℚ := 792
def GRID_COLS : ℕ := 5
def GRID_ROWS : ℕ := 2
def DPI : ℚ := 300
def LEFT_MARGIN : ℚ := 55
def RIGHT_MARGIN : ℚ := 55
def TOP_MARGIN : ℚ := 52
def BOTTOM_MARGIN : ℚ := 52

/-- `SCALE_FIX = 1.04`, src/app.py line 33. -/
def SCALE_FIX : ℚ := 104 / 100

/-- `CROP_BOX = (55, 52, 160, 339)`, src/app.py line 19. -/
def CROP_BOX : ℚ × ℚ × ℚ × ℚ := (55, 52, 160, 339)

/-! ### Unit Converter -/

/-- Point-to-pixel conversion, src/app.py lines 73 and 79-82:
`scale = DPI / 72.0` and `px = x * scale`, generalised over the dpi. -/
def toPixels (v dpi : ℚ) : ℚ := v * (dpi / 72)

/-- Modelled from the spec: the pixel-to-point direction of the Unit
Converter is not present in src (the code only converts points to pixels);
section 4.1 gives `toPoints(pixelValue, dpi) = pixelValue * 72.0 / dpi`. -/
def toPoints (p dpi : ℚ) : ℚ := p * 72 / dpi

/-- Python `int(q)` for a float/rational value: truncation toward zero. -/
def pyInt (q : ℚ) : ℤ := if 0 ≤ q then ⌊q⌋ else ⌈q⌉

/-! ### Images and the raster Region Extractor -/

/-- A decoded raster page/artifact: PIL image dimensions in pixels
(the pixel buffer itself plays no role in any claim). -/
structure RawImage where
  width : ℕ
  height : ℕ
deriving DecidableEq

/-- Modelled from the spec: `PIL.Image.crop` is an external collaborator
(src/app.py line 85 calls `img.crop((px0, py0, px1, py1))`); per the
raster-strategy guarantee of section 4.2 the output image dimensions equal
`(px1 - px0, py1 - py0)`. -/
def cropImage (_img : RawImage) (px0 py0 px1 py1 : ℤ) : RawImage :=
  ⟨(px1 - px0).toNat, (py1 - py0).toNat⟩

/-- Pixel bounds of the crop rectangle, src/app.py lines 73-82:
`scale = dpi / 72.0; px0 = int(x0 * scale); ... py1 = int(y1 * scale)`. -/
def cropPixelBounds (x0 y0 x1 y1 dpi : ℚ) : ℤ × ℤ × ℤ × ℤ :=
  let scale := dpi / 72
  (pyInt (x0 * scale), pyInt (y0 * scale), pyInt (x1 * scale), pyInt (y1 * scale))

/-- The raster extraction of one decoded page, src/app.py lines 73-86:
crop the rasterized first page to `CROP_BOX` converted to pixels at `DPI`. -/
def cropFirstPage (img : RawImage) : RawImage :=
  let b := cropPixelBounds CROP_BOX.1 CROP_BOX.2.1 CROP_BOX.2.2.1 CROP_BOX.2.2.2 DPI
  cropImage img b.1 b.2.1 b.2.2.1 b.2.2.2

/-! ### Grid Layout Planner -/

/-- Aspect-ratio-preserving fit of an artifact into a cell,
src/app.py lines 146-158 (before the `SCALE_FIX` multiplication):
returns `(img_display_width, img_display_height)`. -/
def fitAndCenter (cellW cellH artW artH : ℚ) : ℚ × ℚ :=
  let aspect := artW / artH
  if 1 < aspect then
    let dw := min cellW (cellH * aspect)
    (dw, dw / aspect)
  else
    let dh := min cellH (cellW / aspect)
    (dh * aspect, dh)

/-- Python exceptions / spec error taxonomy relevant to the layout planner. -/
inductive LayoutExc where
  | zeroDivisionError
  | invalidArtifactError
deriving DecidableEq

/-- Python semantics of the aspect computation, src/app.py lines 146-147:
`aspect_ratio = img_width / img_height` raises `ZeroDivisionError` when
`img_height == 0`; the code contains no guard and no `InvalidArtifactError`.
On nonzero heights this is exactly `fitAndCenter`. -/
def fitAndCenterChecked (cellW cellH artW artH : ℚ) : Except LayoutExc (ℚ × ℚ) :=
  if artH = 0 then .error .zeroDivisionError
  else .ok (fitAndCenter cellW cellH artW artH)

/-- The general canvas configuration of spec section 4.3; src/app.py
lines 114-122 instantiate it with the constants above. -/
structure CanvasSpec where
  width : ℚ
  height : ℚ
  cols : ℕ
  rows : ℕ
  marginLeft : ℚ
  marginRight : ℚ
  marginTop : ℚ
  marginBottom : ℚ

/-- `available_width = PDF_WIDTH - (LEFT_MARGIN + RIGHT_MARGIN)`, src/app.py line 118. -/
def CanvasSpec.availableWidth (s : CanvasSpec) : ℚ := s.width - (s.marginLeft + s.marginRight)

/-- `available_height = PDF_HEIGHT - (TOP_MARGIN + BOTTOM_MARGIN)`, src/app.py line 119. -/
def CanvasSpec.availableHeight (s : CanvasSpec) : ℚ := s.height - (s.marginTop + s.marginBottom)

/-- `cell_width = available_width / grid_cols`, src/app.py line 121. -/
def CanvasSpec.cellWidth (s : CanvasSpec) : ℚ := s.availableWidth / s.cols

/-- `cell_height = available_height / grid_rows`, src/app.py line 122. -/
def CanvasSpec.cellHeight (s : CanvasSpec) : ℚ := s.availableHeight / s.rows

/-- A cell rectangle in canvas point space. -/
structure CellRect where
  x : ℚ
  y : ℚ
  w : ℚ
  h : ℚ
deriving DecidableEq

/-- The cell rectangle of grid position `idx`, src/app.py lines 136-141:
`row = idx // grid_cols; col = idx % grid_cols;
x_cell = LEFT_MARGIN + col * cell_width;
y_cell = PDF_HEIGHT - TOP_MARGIN - (row + 1) * cell_height`. -/
def CanvasSpec.cellRect (s : CanvasSpec) (idx : ℕ) : CellRect :=
  let row := idx / s.cols
  let col := idx % s.cols
  ⟨s.marginLeft + col * s.cellWidth,
   s.height - s.marginTop - (row + 1) * s.cellHeight,
   s.cellWidth, s.cellHeight⟩

/-- Two axis-aligned rectangles overlap when their interiors intersect. -/
def overlaps (a b : CellRect) : Prop :=
  a.x < b.x + b.w ∧ b.x < a.x + a.w ∧ a.y < b.y + b.h ∧ b.y < a.y + a.h

/-- The canvas configuration hard-coded in src/app.py. -/
def appCanvas : CanvasSpec :=
  ⟨PDF_WIDTH, PDF_HEIGHT, GRID_COLS, GRID_ROWS,
   LEFT_MARGIN, RIGHT_MARGIN, TOP_MARGIN, BOTTOM_MARGIN⟩

/-! ### Cell-origin formulas of the two strategy variants -/

/-- Raster-variant cell y, src/app.py line 141:
`y_cell = PDF_HEIGHT - TOP_MARGIN - (row + 1) * cell_height`,
generalised over the page height, top margin and cell height. -/
def rasterCellY (height marginTop cellHeight : ℚ) (row : ℕ) : ℚ :=
  height - marginTop - (row + 1) * cellHeight

/-- Vector-variant cell y, src/app_alternative_not_working.py line 111:
`cell_y = MARGIN + (GRID_ROWS - 1 - row) * cell_height`, generalised over
the bottom margin, row count and cell height. -/
def vectorCellY (marginBottom cellHeight : ℚ) (rows row : ℕ) : ℚ :=
  marginBottom + ((rows : ℚ) - 1 - row) * cellHeight

/-! ## Theorems -/

/-- C1: for positive cell and artifact dimensions, the fit-and-center
computation preserves the artifact aspect ratio exactly and, before the
calibration multiplier, fits inside the cell on both axes. -/
theorem fitAndCenter_correct (cw ch aw ah : ℚ)
    (hcw : 0 < cw) (hch : 0 < ch) (haw : 0 < aw) (hah : 0 < ah) :
    (fitAndCenter cw ch aw ah).1 / (fitAndCenter cw ch aw ah).2 = aw / ah ∧
    (fitAndCenter cw ch aw ah).1 ≤ cw ∧
    (fitAndCenter cw ch aw ah).2 ≤ ch := by
  have ha : 0 < aw / ah := div_pos haw hah
  simp only [fitAndCenter]
  split_ifs with h
  · -- wider than tall: dw = min cw (ch * aspect), dh = dw / aspect
    have hdw : 0 < min cw (ch * (aw / ah)) := lt_min hcw (mul_pos hch ha)
    refine ⟨?_, min_le_left _ _, ?_⟩
    · field_simp
      ring
    · have h2 : min cw (ch * (aw / ah)) ≤ ch * (aw / ah) := min_le_right _ _
      exact (div_le_iff₀ ha).mpr h2
  · -- taller than wide: dh = min ch (cw / aspect), dw = dh * aspect
    have hdh : 0 < min ch (cw / (aw / ah)) := lt_min hch (div_pos hcw ha)
    refine ⟨?_, ?_, min_le_left _ _⟩
    · field_simp
      ring
    · have h2 : min ch (cw / (aw / ah)) ≤ cw / (aw / ah) := min_le_right _ _
      have := (le_div_iff₀ ha).mp h2
      linarith

/-- Witness for C1 at a concrete wider-than-tall artifact in a concrete cell. -/
theorem fitAndCenter_correct_witness :
    ((0 : ℚ) < 2 ∧ (0 : ℚ) < 3) ∧
    (fitAndCenter 2 3 3 2).1 / (fitAndCenter 2 3 3 2).2 = 3 / 2 ∧
    (fitAndCenter 2 3 3 2).1 ≤ 2 ∧ (fitAndCenter 2 3 3 2).2 ≤ 3 :=
  ⟨⟨by norm_num, by norm_num⟩,
   fitAndCenter_correct 2 3 3 2 (by norm_num) (by norm_num) (by norm_num) (by norm_num)⟩

/-- C4: the Unit Converter contract and its round trip: `toPixels` multiplies
by `dpi / 72`, `toPoints` divides by it, and for `dpi > 0` the composition is
the identity, exactly over ℚ. -/
theorem unitConverter_roundTrip (v dpi : ℚ) (h : 0 < dpi) :
    toPixels v dpi = v * dpi / 72 ∧
    toPoints v dpi = v * 72 / dpi ∧
    toPoints (toPixels v dpi) dpi = v := by
  have hd : dpi ≠ 0 := ne_of_gt h
  refine ⟨by rw [toPixels, mul_div_assoc], rfl, ?_⟩
  rw [toPixels, toPoints]
  field_simp

/-- Witness for C4 at `v = 5`, `dpi = 300`. -/
theorem unitConverter_roundTrip_witness :
    (0 : ℚ) < 300 ∧
    (toPixels 5 300 = 5 * 300 / 72 ∧
     toPoints 5 300 = 5 * 72 / 300 ∧
     toPoints (toPixels 5 300) 300 = 5) :=
  ⟨by norm_num, unitConverter_roundTrip 5 300 (by norm_num)⟩

/-- C10: with a shared cell height `(h - mt - mb) / r`, the raster variant's
top-down cell-origin formula agrees with the vector variant's bottom-up one
at every row of the grid. -/
theorem cellY_variants_agree (h mt mb ch : ℚ) (r row : ℕ)
    (hr : 0 < r) (hrow : row < r) (hch : ch = (h - mt - mb) / r) :
    rasterCellY h mt ch row = vectorCellY mb ch r row := by
  have hr0 : (r : ℚ) ≠ 0 := Nat.cast_ne_zero.mpr hr.ne'
  subst hch
  rw [rasterCellY, vectorCellY]
  field_simp
  ring

/-- Witness for C10 at the raster variant's page and margin constants. -/
theorem cellY_variants_agree_witness :
    ((0 : ℕ) < 2 ∧ (1 : ℕ) < 2) ∧
    rasterCellY 792 52 ((792 - 52 - 52 : ℚ) / 2) 1 =
      vectorCellY 52 ((792 - 52 - 52 : ℚ) / 2) 2 1 :=
  ⟨⟨by norm_num, by norm_num⟩,
   cellY_variants_agree 792 52 52 _ 2 1 (by norm_num) (by norm_num) rfl⟩

/-- C8 (amended): a zero-height artifact is not rejected; the code reaches
the division `img_width / img_height`, which in Python raises
`ZeroDivisionError` (caught only by the generic 500 handler), for every
cell size and artifact width. -/
theorem zeroHeight_raises (cw ch aw : ℚ) :
    fitAndCenterChecked cw ch aw 0 = .error LayoutExc.zeroDivisionError := by
  simp [fitAndCenterChecked]

/-- C8 counterexample: at a concrete zero-height artifact the layout
computation yields `ZeroDivisionError`, not the `InvalidArtifactError`
rejection the claim requires. -/
theorem zeroHeight_counterexample :
    fitAndCenterChecked 100 344 5 0 = .error LayoutExc.zeroDivisionError ∧
    fitAndCenterChecked 100 344 5 0 ≠ .error LayoutExc.invalidArtifactError := by
  constructor
  · simp [fitAndCenterChecked]
  · simp [fitAndCenterChecked]

/-- C9: for a CropBox with non-negative, ordered components and `dpi > 0`,
the raster extractor's pixel bounds are the floors `⌊v * dpi / 72⌋` of the
converted coordinates (Python `int` truncation equals floor on non-negative
values), and the cropped image measures exactly `px1 - px0` by `py1 - py0`. -/
theorem rasterCrop_correct (x0 y0 x1 y1 dpi : ℚ) (img : RawImage)
    (hx0 : 0 ≤ x0) (hy0 : 0 ≤ y0) (hx : x0 ≤ x1) (hy : y0 ≤ y1) (hd : 0 < dpi) :
    cropPixelBounds x0 y0 x1 y1 dpi =
      (⌊x0 * dpi / 72⌋, ⌊y0 * dpi / 72⌋, ⌊x1 * dpi / 72⌋, ⌊y1 * dpi / 72⌋) ∧
    ((cropImage img ⌊x0 * dpi / 72⌋ ⌊y0 * dpi / 72⌋ ⌊x1 * dpi / 72⌋ ⌊y1 * dpi / 72⌋).width : ℤ)
        = ⌊x1 * dpi / 72⌋ - ⌊x0 * dpi / 72⌋ ∧
    ((cropImage img ⌊x0 * dpi / 72⌋ ⌊y0 * dpi / 72⌋ ⌊x1 * dpi / 72⌋ ⌊y1 * dpi / 72⌋).height : ℤ)
        = ⌊y1 * dpi / 72⌋ - ⌊y0 * dpi / 72⌋ := by
  have hsc : 0 ≤ dpi / 72 := le_of_lt (div_pos hd (by norm_num))
  have hx1 : 0 ≤ x1 := le_trans hx0 hx
  have hy1 : 0 ≤ y1 := le_trans hy0 hy
  have hmx : x0 * (dpi / 72) ≤ x1 * (dpi / 72) := mul_le_mul_of_nonneg_right hx hsc
  have hmy : y0 * (dpi / 72) ≤ y1 * (dpi / 72) := mul_le_mul_of_nonneg_right hy hsc
  refine ⟨?_, ?_, ?_⟩
  · simp only [cropPixelBounds, pyInt,
      if_pos (mul_nonneg hx0 hsc), if_pos (mul_nonneg hy0 hsc),
      if_pos (mul_nonneg hx1 hsc), if_pos (mul_nonneg hy1 hsc), mul_div_assoc]
  · simp only [cropImage]
    rw [Int.toNat_of_nonneg]
    rw [sub_nonneg]
    rw [mul_div_assoc, mul_div_assoc]
    exact Int.floor_le_floor hmx
  · simp only [cropImage]
    rw [Int.toNat_of_nonneg]
    rw [sub_nonneg]
    rw [mul_div_assoc, mul_div_assoc]
    exact Int.floor_le_floor hmy

/-- Witness for C9 at the program's own crop box `(55, 52, 160, 339)` and
`DPI = 300` on a full US-Letter raster page. -/
theorem rasterCrop_correct_witness :
    ((0 : ℚ) ≤ 55 ∧ (55 : ℚ) ≤ 160 ∧ (0 : ℚ) < 300) ∧
    (cropPixelBounds 55 52 160 339 300 =
      (⌊(55 : ℚ) * 300 / 72⌋, ⌊(52 : ℚ) * 300 / 72⌋, ⌊(160 : ℚ) * 300 / 72⌋, ⌊(339 : ℚ) * 300 / 72⌋) ∧
    ((cropImage ⟨2550, 3300⟩ ⌊(55 : ℚ) * 300 / 72⌋ ⌊(52 : ℚ) * 300 / 72⌋ ⌊(160 : ℚ) * 300 / 72⌋ ⌊(339 : ℚ) * 300 / 72⌋).width : ℤ)
        = ⌊(160 : ℚ) * 300 / 72⌋ - ⌊(55 : ℚ) * 300 / 72⌋ ∧
    ((cropImage ⟨2550, 3300⟩ ⌊(55 : ℚ) * 300 / 72⌋ ⌊(52 : ℚ) * 300 / 72⌋ ⌊(160 : ℚ) * 300 / 72⌋ ⌊(339 : ℚ) * 300 / 72⌋).height : ℤ)
        = ⌊(339 : ℚ) * 300 / 72⌋ - ⌊(52 : ℚ) * 300 / 72⌋) :=
  ⟨⟨by norm_num, by norm_num, by norm_num⟩,
   rasterCrop_correct 55 52 160 339 300 ⟨2550, 3300⟩
     (by norm_num) (by norm_num) (by norm_num) (by norm_num) (by norm_num)⟩

/-! ### Helper lemmas for the tiling theorem -/

theorem overlaps_comm {a b : CellRect} (h : overlaps a b) : overlaps b a :=
  ⟨h.2.1, h.1, h.2.2.2, h.2.2.1⟩

theorem cellWidth_pos (s : CanvasSpec) (hc : 0 < s.cols)
    (hw : s.marginLeft + s.marginRight < s.width) : 0 < s.cellWidth := by
  apply div_pos
  · rw [CanvasSpec.availableWidth]; linarith
  · exact_mod_cast hc

theorem cellHeight_pos (s : CanvasSpec) (hr : 0 < s.rows)
    (hh : s.marginTop + s.marginBottom < s.height) : 0 < s.cellHeight := by
  apply div_pos
  · rw [CanvasSpec.availableHeight]; linarith
  · exact_mod_cast hr

theorem not_overlaps_of_col_lt (s : CanvasSpec) (hcw : 0 < s.cellWidth)
    {i j : ℕ} (hij : i % s.cols < j % s.cols) :
    ¬ overlaps (s.cellRect i) (s.cellRect j) := by
  intro ho
  simp only [CanvasSpec.cellRect, overlaps] at ho
  obtain ⟨-, hx2, -, -⟩ := ho
  have h1 : ((i % s.cols : ℕ) : ℚ) + 1 ≤ ((j % s.cols : ℕ) : ℚ) := by
    exact_mod_cast Nat.succ_le_of_lt hij
  nlinarith [mul_le_mul_of_nonneg_right h1 hcw.le]

theorem not_overlaps_of_row_lt (s : CanvasSpec) (hch : 0 < s.cellHeight)
    {i j : ℕ} (hij : i / s.cols < j / s.cols) :
    ¬ overlaps (s.cellRect i) (s.cellRect j) := by
  intro ho
  simp only [CanvasSpec.cellRect, overlaps] at ho
  obtain ⟨-, -, hy1, -⟩ := ho
  have h1 : ((i / s.cols : ℕ) : ℚ) + 1 ≤ ((j / s.cols : ℕ) : ℚ) := by
    exact_mod_cast Nat.succ_le_of_lt hij
  nlinarith [mul_le_mul_of_nonneg_right h1 hch.le]

/-- C2: for a valid canvas configuration, the `rows * cols` cell rectangles
are pairwise non-overlapping and their areas sum exactly to the available
canvas area. -/
theorem cellRects_tile (s : CanvasSpec) (hc : 0 < s.cols) (hr : 0 < s.rows)
    (hw : s.marginLeft + s.marginRight < s.width)
    (hh : s.marginTop + s.marginBottom < s.height) :
    (∀ i j, i < s.rows * s.cols → j < s.rows * s.cols → i ≠ j →
        ¬ overlaps (s.cellRect i) (s.cellRect j)) ∧
    ∑ i ∈ Finset.range (s.rows * s.cols), (s.cellRect i).w * (s.cellRect i).h
      = s.availableWidth * s.availableHeight := by
  have hcw : 0 < s.cellWidth := cellWidth_pos s hc hw
  have hch : 0 < s.cellHeight := cellHeight_pos s hr hh
  constructor
  · intro i j _ _ hij
    rcases lt_trichotomy (i % s.cols) (j % s.cols) with h | h | h
    · exact not_overlaps_of_col_lt s hcw h
    · rcases lt_trichotomy (i / s.cols) (j / s.cols) with h2 | h2 | h2
      · exact not_overlaps_of_row_lt s hch h2
      · exact absurd (by
          have hi := Nat.div_add_mod i s.cols
          have hj := Nat.div_add_mod j s.cols
          rw [← hi, ← hj, h, h2]) hij
      · intro ho
        exact not_overlaps_of_row_lt s hch h2 (overlaps_comm ho)
    · intro ho
      exact not_overlaps_of_col_lt s hcw h (overlaps_comm ho)
  · have harea : ∀ i ∈ Finset.range (s.rows * s.cols),
        (s.cellRect i).w * (s.cellRect i).h = s.cellWidth * s.cellHeight := by
      intro i _
      simp [CanvasSpec.cellRect]
    rw [Finset.sum_congr rfl harea, Finset.sum_const, Finset.card_range, nsmul_eq_mul]
    rw [CanvasSpec.cellWidth, CanvasSpec.cellHeight]
    have hc0 : (s.cols : ℚ) ≠ 0 := Nat.cast_ne_zero.mpr hc.ne'
    have hr0 : (s.rows : ℚ) ≠ 0 := Nat.cast_ne_zero.mpr hr.ne'
    push_cast
    field_simp
    ring

/-- Witness for C2 at the canvas configuration hard-coded in src/app.py. -/
theorem cellRects_tile_witness :
    (0 < appCanvas.cols ∧ 0 < appCanvas.rows ∧
     appCanvas.marginLeft + appCanvas.marginRight < appCanvas.width ∧
     appCanvas.marginTop + appCanvas.marginBottom < appCanvas.height) ∧
    ((∀ i j, i < appCanvas.rows * appCanvas.cols → j < appCanvas.rows * appCanvas.cols →
        i ≠ j → ¬ overlaps (appCanvas.cellRect i) (appCanvas.cellRect j)) ∧
     ∑ i ∈ Finset.range (appCanvas.rows * appCanvas.cols),
        (appCanvas.cellRect i).w * (appCanvas.cellRect i).h
       = appCanvas.availableWidth * appCanvas.availableHeight) :=
  ⟨⟨by decide, by decide,
    by norm_num [appCanvas, LEFT_MARGIN, RIGHT_MARGIN, PDF_WIDTH],
    by norm_num [appCanvas, TOP_MARGIN, BOTTOM_MARGIN, PDF_HEIGHT]⟩,
   cellRects_tile appCanvas (by decide) (by decide)
     (by norm_num [appCanvas, LEFT_MARGIN, RIGHT_MARGIN, PDF_WIDTH])
     (by norm_num [appCanvas, TOP_MARGIN, BOTTOM_MARGIN, PDF_HEIGHT])⟩

/-! ### Page Composer loop, src/app.py lines 109-192 -/

/-- Local bindings of create_grid_pdf, src/app.py lines 118-122. -/
def available_width : ℚ := PDF_WIDTH - (LEFT_MARGIN + RIGHT_MARGIN)

def available_height : ℚ := PDF_HEIGHT - (TOP_MARGIN + BOTTOM_MARGIN)

def cell_width : ℚ := available_width / GRID_COLS

def cell_height : ℚ := available_height / GRID_ROWS

/-- One `c.drawImage` call issued by the grid loop: the enumerate index,
the grid position, and the placement rectangle passed to the canvas. -/
structure DrawOp where
  idx : ℕ
  row : ℕ
  col : ℕ
  x : ℚ
  y : ℚ
  w : ℚ
  h : ℚ
deriving DecidableEq

/-- The body of one successful loop iteration, src/app.py lines 136-182:
grid position, fit, calibration, centering, and the drawImage call. -/
def mkDrawOp (img : RawImage) (idx : ℕ) : DrawOp :=
  let row := idx / GRID_COLS
  let col := idx % GRID_COLS
  let xCell := LEFT_MARGIN + col * cell_width
  let yCell := PDF_HEIGHT - TOP_MARGIN - (row + 1) * cell_height
  let fit := fitAndCenter cell_width cell_height img.width img.height
  let w := fit.1 * SCALE_FIX
  let h := fit.2 * SCALE_FIX
  ⟨idx, row, col, xCell + (cell_width - w) / 2, yCell + (cell_height - h) / 2, w, h⟩

/-- The grid loop of create_grid_pdf, src/app.py lines 132-182:
`for idx, img in enumerate(images): if idx >= (grid_rows * grid_cols): break; ...`,
accumulating the drawImage calls.  A degenerate image raises
`ZeroDivisionError` out of the loop body: at line 147
(`aspect_ratio = img_width / img_height`) when the height is zero, and at
line 157 (`max_width / aspect_ratio`, with aspect 0) when the width is zero;
the exception aborts the loop before `c.save()`, so no trace survives. -/
def drawOps : List RawImage → ℕ → Except LayoutExc (List DrawOp)
  | [], _ => .ok []
  | img :: rest, idx =>
    if GRID_ROWS * GRID_COLS ≤ idx then .ok []
    else if img.height = 0 then .error .zeroDivisionError
    else if img.width = 0 then .error .zeroDivisionError
    else
      match drawOps rest (idx + 1) with
      | .error e => .error e
      | .ok ops => .ok (mkDrawOp img idx :: ops)

/-- `create_grid_pdf(images)`, src/app.py line 109: the output document,
abstracted as the sequence of drawImage calls on the single output page, or
the exception that aborted the loop. -/
def create_grid_pdf (images : List RawImage) : Except LayoutExc (List DrawOp) :=
  drawOps images 0

/-- The enumerate indices the loop actually draws (none when it raises,
since the output is never saved). -/
def drawnIdxs (images : List RawImage) : List ℕ :=
  match create_grid_pdf images with
  | .error _ => []
  | .ok ops => ops.map DrawOp.idx

/-- The grid positions the loop actually draws, in input order (none when
it raises). -/
def gridCells (images : List RawImage) : List (ℕ × ℕ) :=
  match create_grid_pdf images with
  | .error _ => []
  | .ok ops => ops.map (fun op => (op.row, op.col))

/-- The index trace of the loop depends only on the image count. -/
def idxSeq : ℕ → ℕ → List ℕ
  | 0, _ => []
  | n + 1, k => if GRID_ROWS * GRID_COLS ≤ k then [] else k :: idxSeq n (k + 1)

/-- The grid-position trace of the loop depends only on the image count. -/
def cellSeq : ℕ → ℕ → List (ℕ × ℕ)
  | 0, _ => []
  | n + 1, k =>
    if GRID_ROWS * GRID_COLS ≤ k then []
    else (k / GRID_COLS, k % GRID_COLS) :: cellSeq n (k + 1)

theorem drawOps_ok (images : List RawImage) (k : ℕ)
    (hnd : ∀ img ∈ images, img.width ≠ 0 ∧ img.height ≠ 0) :
    ∃ ops, drawOps images k = .ok ops ∧
      ops.map DrawOp.idx = idxSeq images.length k ∧
      ops.map (fun op => (op.row, op.col)) = cellSeq images.length k := by
  induction images generalizing k with
  | nil => exact ⟨[], rfl, rfl, rfl⟩
  | cons img rest ih =>
    have hnd1 := hnd img (List.mem_cons_self _ _)
    obtain ⟨ops, h1, h2, h3⟩ :=
      ih (k + 1) (fun i hi => hnd i (List.mem_cons_of_mem _ hi))
    by_cases hk : GRID_ROWS * GRID_COLS ≤ k
    · exact ⟨[], by simp [drawOps, hk], by simp [idxSeq, hk], by simp [cellSeq, hk]⟩
    · refine ⟨mkDrawOp img k :: ops, ?_, ?_, ?_⟩
      · simp [drawOps, hk, hnd1.1, hnd1.2, h1]
      · simp [idxSeq, hk, h2, mkDrawOp]
      · simp [cellSeq, hk, h3, mkDrawOp]

theorem mem_idxSeq (n : ℕ) : ∀ k i : ℕ,
    (i ∈ idxSeq n k ↔ k ≤ i ∧ i < k + n ∧ i < GRID_ROWS * GRID_COLS) := by
  induction n with
  | zero =>
    intro k i
    simp only [idxSeq, List.not_mem_nil, false_iff]
    omega
  | succ n ih =>
    intro k i
    simp only [idxSeq]
    split_ifs with h
    · simp only [List.not_mem_nil, false_iff]
      omega
    · simp only [List.mem_cons, ih (k + 1) i]
      omega

/-- C3 (amended): for a batch in which every artifact has nonzero width and
height, the grid loop completes without error and draws the artifact at
input position `idx` iff `idx < rows * cols` (later artifacts are silently
dropped), a batch of exactly `rows * cols` artifacts occupies every cell
exactly once, and a single artifact lands at `row = 0, col = 0`. -/
theorem grid_truncation (images : List RawImage)
    (hnd : ∀ img ∈ images, img.width ≠ 0 ∧ img.height ≠ 0) :
    (∃ ops, create_grid_pdf images = .ok ops) ∧
    (∀ i, i < images.length →
       (i ∈ drawnIdxs images ↔ i < GRID_ROWS * GRID_COLS)) ∧
    (images.length = GRID_ROWS * GRID_COLS →
       ∀ r, r < GRID_ROWS → ∀ c, c < GRID_COLS →
         (gridCells images).count (r, c) = 1) ∧
    (images.length = 1 → gridCells images = [(0, 0)]) := by
  obtain ⟨ops, h1, h2, h3⟩ := drawOps_ok images 0 hnd
  have h1g : create_grid_pdf images = .ok ops := h1
  have hdi : drawnIdxs images = idxSeq images.length 0 := by
    simp only [drawnIdxs, h1g]
    exact h2
  have hgc : gridCells images = cellSeq images.length 0 := by
    simp only [gridCells, h1g]
    exact h3
  refine ⟨⟨ops, h1g⟩, ?_, ?_, ?_⟩
  · intro i hi
    rw [hdi, mem_idxSeq]
    omega
  · intro hlen
    rw [hgc, hlen]
    decide
  · intro hlen
    rw [hgc, hlen]
    rfl

/-- A stand-in decoded page of positive size. -/
def demoImage : RawImage := ⟨150, 100⟩

/-- A batch of `n` identical decoded pages. -/
def demoImages (n : ℕ) : List RawImage := List.replicate n demoImage

/-- A degenerate decoded page of zero height. -/
def degenerateImage : RawImage := ⟨5, 0⟩

/-- C3 counterexample: a batch holding a zero-height artifact at position 0
and a normal artifact at position 1 is not drawn without error: the loop
body raises `ZeroDivisionError` at the aspect division (src/app.py line
147), and the artifact at position `1 < rows * cols` is never drawn. -/
theorem grid_truncation_counterexample :
    create_grid_pdf [degenerateImage, demoImage]
      = .error LayoutExc.zeroDivisionError ∧
    drawnIdxs [degenerateImage, demoImage] = [] ∧
    (1 : ℕ) < GRID_ROWS * GRID_COLS :=
  ⟨rfl, rfl, by decide⟩

/-- Witness for C3 (amended) on concrete batches of ten and of one image. -/
theorem grid_truncation_witness :
    (∀ img ∈ demoImages 10, img.width ≠ 0 ∧ img.height ≠ 0) ∧
    ((0 ∈ drawnIdxs (demoImages 10) ↔ 0 < GRID_ROWS * GRID_COLS) ∧
     (gridCells (demoImages 10)).count (1, 4) = 1 ∧
     gridCells (demoImages 1) = [(0, 0)]) :=
  ⟨by decide,
   ⟨(grid_truncation (demoImages 10) (by decide)).2.1 0 (by decide),
    (grid_truncation (demoImages 10) (by decide)).2.2.1 (by decide) 1 (by decide) 4
      (by decide),
    (grid_truncation (demoImages 1) (by decide)).2.2.2 (by decide)⟩⟩

/-! ### Transport / validation layer, src/app.py lines 41-106 -/

/-- One multipart upload: a filename and its raw byte payload (bytes are
abstracted to a key, enough to drive the external decoder). -/
structure UploadedFile where
  filename : String
  content : ℕ
deriving DecidableEq

/-- The external document decoder (`convert_from_bytes` with
`first_page = last_page = 1`, src/app.py lines 61-66): raw bytes either
decode to the — possibly empty — list of rasterized pages, or raise an
exception carrying a message. -/
def Decoder : Type := ℕ → Except String (List RawImage)

/-- Python `str.lower()` applied to a filename: per-character lowercasing
(`Char.toLower` agrees with Python on the ASCII letters, which is all the
`.pdf` check inspects). -/
def strLower (s : String) : String := String.mk (s.data.map Char.toLower)

/-- Python `str.endswith(suffix)`: the string's final characters equal the
suffix. -/
def strEndsWith (s suffix : String) : Bool :=
  List.isSuffixOf suffix.data s.data

/-- The per-file validation check, src/app.py line 52:
`file.filename == '' or not file.filename.lower().endswith('.pdf')`. -/
def badFile (f : UploadedFile) : Bool :=
  f.filename == "" || !(strEndsWith (strLower f.filename) ".pdf")

/-- The crop loop of process_pdfs, src/app.py lines 56-90: decode each file,
return the first decode error as a 400, silently skip files that decode to
zero pages (`if images_list:` on line 68), and crop the first page of the
rest. -/
def extractImages (decode : Decoder) : List UploadedFile → Except String (List RawImage)
  | [] => .ok []
  | f :: fs =>
    match decode f.content with
    | .error e => .error e
    | .ok [] => extractImages decode fs
    | .ok (img :: _) =>
      match extractImages decode fs with
      | .error e => .error e
      | .ok rest => .ok (cropFirstPage img :: rest)

/-- The HTTP response of the endpoint: either the composed output document
(`send_file`, abstracted as its drawImage trace) or a status and message
(`jsonify(\x7b'error': ...\x7d), status`). -/
inductive Resp where
  | file (ops : List DrawOp)
  | err (status : ℕ) (msg : String)
deriving DecidableEq

def Resp.isErr : Resp → Bool
  | .file _ => false
  | .err _ _ => true

/-- The request handler process_pdfs, src/app.py lines 41-106, parameterised
by the external decoder.  A `ZeroDivisionError` escaping create_grid_pdf is
caught only by the outer `except Exception` (lines 104-106), which returns
`str(e)` — "division by zero" — with status 500. -/
def process_pdfs (decode : Decoder) (files : List UploadedFile) : Resp :=
  if files.length = 0 then .err 400 "No files provided"
  else if 10 < files.length then .err 400 "Maximum 10 files allowed"
  else
    match files.find? badFile with
    | some f => .err 400 ("Invalid file: " ++ f.filename)
    | none =>
      match extractImages decode files with
      | .error e => .err 400 ("Error processing PDF: " ++ e)
      | .ok images =>
        match create_grid_pdf images with
        | .error _ => .err 500 "division by zero"
        | .ok ops => .file ops

/-- C5: an empty batch, a batch of more than ten files, or any empty or
non-`.pdf` filename yields a 400 response whose message does not depend on
the decoder — no decode work is attempted. -/
theorem validation_short_circuits (files : List UploadedFile)
    (h : files = [] ∨ 10 < files.length ∨ ∃ f ∈ files, badFile f = true) :
    ∃ msg, ∀ decode : Decoder, process_pdfs decode files = Resp.err 400 msg := by
  by_cases h0 : files.length = 0
  · exact ⟨"No files provided", fun d => by simp [process_pdfs, h0]⟩
  · by_cases h10 : 10 < files.length
    · exact ⟨"Maximum 10 files allowed", fun d => by simp [process_pdfs, h0, h10]⟩
    · have hbad : ∃ f ∈ files, badFile f = true := by
        rcases h with h | h | h
        · subst h
          exact absurd rfl h0
        · exact absurd h h10
        · exact h
      rcases hfind : files.find? badFile with _ | f
      · exfalso
        rcases hbad with ⟨f, hf, hbf⟩
        have := List.find?_eq_none.mp hfind f hf
        rw [hbf] at this
        exact this rfl
      · exact ⟨"Invalid file: " ++ f.filename,
          fun d => by simp [process_pdfs, h0, h10, hfind]⟩

/-- An upload whose filename fails the `.pdf` check. -/
def fileTxt : UploadedFile := ⟨"a.txt", 3⟩

/-- Witness for C5 on a one-file batch with a non-`.pdf` filename. -/
theorem validation_short_circuits_witness :
    (∃ f ∈ [fileTxt], badFile f = true) ∧
    ∃ msg, ∀ decode : Decoder, process_pdfs decode [fileTxt] = Resp.err 400 msg :=
  ⟨⟨fileTxt, by decide, by decide⟩,
   validation_short_circuits [fileTxt]
     (Or.inr (Or.inr ⟨fileTxt, by decide, by decide⟩))⟩

/-! ### Decode-phase behaviour: C6 and C7 -/

/-- A valid-named upload. -/
def fileA : UploadedFile := ⟨"a.pdf", 0⟩

/-- A second valid-named upload. -/
def fileB : UploadedFile := ⟨"b.pdf", 1⟩

/-- A decoder under which every document decodes to zero pages. -/
def decodeEmptyPages : Decoder := fun _ => .ok []

/-- A decoder that raises exactly on the document whose bytes are `bad`,
with exception text "boom", and yields one page everywhere else. -/
def decodeFailOn (bad : ℕ) : Decoder := fun b =>
  if b = bad then .error "boom" else .ok [⟨1650, 2200⟩]

/-- C6 counterexample: a batch whose single document decodes to zero pages
is processed successfully — the request returns an (empty) output document,
not an `EmptyDocumentError` or any other failure. -/
theorem emptyDoc_counterexample :
    process_pdfs decodeEmptyPages [fileA] = Resp.file [] ∧
    (process_pdfs decodeEmptyPages [fileA]).isErr = false := by
  constructor
  · decide
  · decide

/-- C6 (amended): a document whose decoded page list is empty is silently
skipped by the crop loop — extraction of the batch behaves exactly as if
the document were absent, and no error is raised for it. -/
theorem emptyDoc_skipped (decode : Decoder) (f : UploadedFile)
    (fs : List UploadedFile) (h : decode f.content = .ok []) :
    extractImages decode (f :: fs) = extractImages decode fs := by
  simp [extractImages, h]

/-- Witness for C6 (amended) on a concrete zero-page batch. -/
theorem emptyDoc_skipped_witness :
    decodeEmptyPages fileA.content = .ok [] ∧
    extractImages decodeEmptyPages [fileA] = extractImages decodeEmptyPages [] :=
  ⟨rfl, emptyDoc_skipped decodeEmptyPages fileA [] rfl⟩

/-- C7 counterexample: two runs of the handler in which different documents
fail to decode produce literally identical 400 responses, so the response
cannot identify which input failed — it carries only the decoder's
exception text. -/
theorem decodeFailure_counterexample :
    process_pdfs (decodeFailOn 0) [fileA, fileB]
      = process_pdfs (decodeFailOn 1) [fileA, fileB] ∧
    process_pdfs (decodeFailOn 1) [fileA, fileB]
      = Resp.err 400 "Error processing PDF: boom" := by
  constructor
  · decide
  · decide

/-- C7 (amended): when validation passes and some document's decode raises,
the whole batch aborts with a 400 response carrying the decoder's message
(the failing input is not named in it), and no output document is produced
— partial success never occurs. -/
theorem decodeFailure_aborts (decode : Decoder) (files : List UploadedFile)
    (e : String) (h0 : files.length ≠ 0) (h10 : ¬ 10 < files.length)
    (hval : files.find? badFile = none)
    (hext : extractImages decode files = .error e) :
    process_pdfs decode files = Resp.err 400 ("Error processing PDF: " ++ e) ∧
    ∀ ops, process_pdfs decode files ≠ Resp.file ops := by
  have h : process_pdfs decode files = Resp.err 400 ("Error processing PDF: " ++ e) := by
    simp [process_pdfs, h0, h10, hval, hext]
  refine ⟨h, fun ops hc => ?_⟩
  rw [h] at hc
  exact Resp.noConfusion hc

/-- Witness for C7 (amended) on a concrete batch whose second document fails. -/
theorem decodeFailure_aborts_witness :
    ([fileA, fileB].length ≠ 0 ∧ ¬ 10 < [fileA, fileB].length ∧
     [fileA, fileB].find? badFile = none ∧
     extractImages (decodeFailOn 1) [fileA, fileB] = .error "boom") ∧
    (process_pdfs (decodeFailOn 1) [fileA, fileB]
        = Resp.err 400 ("Error processing PDF: " ++ "boom") ∧
     ∀ ops, process_pdfs (decodeFailOn 1) [fileA, fileB] ≠ Resp.file ops) :=
  ⟨⟨by decide, by decide, by decide, by rfl⟩,
   decodeFailure_aborts (decodeFailOn 1) [fileA, fileB] "boom"
     (by decide) (by decide) (by decide) (by rfl)⟩
